import Mathlib

/-!
Verification development for the `reflex` trading control plane.

The Rust sources are shallowly embedded over `ℚ` (all `f64` values become
rationals; the floating-point rounding of the source is not modelled, every
arithmetic step is exact).  `Instant` / `SystemTime` values become explicit
numeric parameters: a function of the source that reads the clock takes the
corresponding time (or elapsed duration) as an argument.  Transcendental
`f64` operations (`sqrt`, `ln`, `powf`) have no rational counterpart; where
the source uses them the embedding takes the already-computed value as an
explicit argument (the decay factor of the veto gate) or is parameterised by
an abstract function (`sqrtFn`, `lnFn` of the physics engine and sentinel),
so that every definition stays executable and theorems can quantify over the
abstracted operation.

The source tree carries unresolved merge markers in `feynman.rs` and
`shadow_gate.rs` (two `update` signatures, two `PhysicsState` layouts).  The
embedding follows the HEAD variant (`bid_ask_spread` field, `update` without
`volume`); none of the proved properties depends on the choice.
-/

namespace Reflex

/-- Rational stand-in for `f64::EPSILON`, which is 2⁻⁵². -/
def f64Eps : ℚ := 1 / 2 ^ 52

/-! ## Physics state (`feynman.rs`, HEAD layout) -/

/-- The Ψ-state emitted by the physics estimator (`PhysicsState` in
`feynman.rs`).  `volatility` holds the value the source computes as
`variance.sqrt()`; in the embedding it is whatever the abstract `sqrtFn`
of the engine returned. -/
structure PhysicsState where
  timestamp : ℚ
  price : ℚ
  velocity : ℚ
  acceleration : ℚ
  jerk : ℚ
  volatility : ℚ
  entropy : ℚ
  efficiency_index : ℚ
  basis : ℚ
  bid_ask_spread : ℚ
  sequence_id : ℕ
  deriving Repr, DecidableEq

/-- `PhysicsState::default()`: every numeric field zero. -/
def PhysicsState.default : PhysicsState :=
  ⟨0, 0, 0, 0, 0, 0, 0, 0, 0, 0, 0⟩

/-! ## Veto gate (`brain/veto_gate.rs`) -/

/-- `VetoGate` keeps the last sentiment score.  The source also stores
`last_sentiment_time : Instant`; the embedding instead passes the decay
factor `0.5 ^ (elapsed_seconds / 60)` (a value in `(0, 1]` computed from
that instant) directly to `check_hard_stop`, because a rational model has
no `powf`. -/
structure VetoGate where
  last_sentiment_score : ℚ
  deriving Repr, DecidableEq

/-- `VetoGate::new()`. -/
def VetoGate.new : VetoGate := ⟨0⟩

/-- `VetoGate::update_sentiment`: records the score (and, in the source,
the current instant — i.e. the decay factor restarts at 1). -/
def VetoGate.update_sentiment (g : VetoGate) (score : ℚ) : VetoGate :=
  { g with last_sentiment_score := score }

/-- `VetoGate::check_hard_stop`: HALT only if the decayed sentiment is
below −0.9 AND |jerk| exceeds 50 AND the omega ratio is below 1.0.
`decayFactor` stands for `0.5f64.powf(elapsed.as_secs_f64() / 60.0)`. -/
def VetoGate.check_hard_stop (g : VetoGate) (physics : PhysicsState)
    (omega_ratio decayFactor : ℚ) : Bool :=
  let decayed_sentiment := g.last_sentiment_score * decayFactor
  let is_extreme_narrative := decide (decayed_sentiment < -(9/10))
  let is_chaos := decide (|physics.jerk| > 50)
  let is_negative_ev := decide (omega_ratio < 1)
  is_extreme_narrative && is_chaos && is_negative_ev

/-! ## Provisional executive (`governor/provisional.rs`) -/

/-- `SAFETY_STAIRCASE`: the six position-size tiers. -/
def SAFETY_STAIRCASE : List ℚ := [1/100, 5/100, 10/100, 25/100, 1/2, 1]

/-- `WARMUP_DURATION_MS`: five minutes. -/
def WARMUP_DURATION_MS : ℚ := 300000

/-- `ProvisionalExecutive`.  The source's `boot_time : Instant` is replaced
by passing `boot_time.elapsed().as_millis()` to `update` /
`attempt_promotion` as an argument. -/
structure ProvisionalExecutive where
  current_tier_index : ℕ
  consecutive_stable_cycles : ℕ
  required_stable_cycles : ℕ
  shadow_pnl_window : List ℚ
  deriving Repr, DecidableEq

/-- `ProvisionalExecutive::new()`: tier 0, counters zero, two required
stable cycles, empty shadow-PnL window. -/
def ProvisionalExecutive.new : ProvisionalExecutive := ⟨0, 0, 2, []⟩

/-- `get_current_max_risk`: indexes `SAFETY_STAIRCASE` by the current tier.
The source indexes the array directly (a panic out of bounds); the executive
never leaves `0..=5`, and `getD _ 0` keeps the model total. -/
def ProvisionalExecutive.get_current_max_risk (e : ProvisionalExecutive) : ℚ :=
  SAFETY_STAIRCASE.getD e.current_tier_index 0

/-- `calculate_stability_score`: fuses jerk / efficiency / entropy scores
and returns the ceiling of their mean (1 = best, 10 = worst). -/
def calculate_stability_score (jerk entropy efficiency : ℚ) : ℕ :=
  let j_score : ℕ :=
    if |jerk| < 1/100 then 1
    else if |jerk| < 5/100 then 2
    else if |jerk| < 1/10 then 5
    else 10
  let e_score : ℕ :=
    if efficiency > 9/10 then 1
    else if efficiency > 8/10 then 2
    else if efficiency > 1/2 then 5
    else 10
  let h_score : ℕ := if entropy < 1 then 1 else 10
  (((j_score : ℚ) + (e_score : ℚ) + (h_score : ℚ)) / 3).ceil.toNat

/-- `update_shadow_sim`: 1000-sample ring, oldest evicted. -/
def ProvisionalExecutive.update_shadow_sim (e : ProvisionalExecutive)
    (pnl_tick : ℚ) : ProvisionalExecutive :=
  let w := if e.shadow_pnl_window.length ≥ 1000
           then e.shadow_pnl_window.tail else e.shadow_pnl_window
  { e with shadow_pnl_window := w ++ [pnl_tick] }

/-- `attempt_promotion`: requires enough consecutive stable cycles, the
5-minute warm-up to be over, positive total shadow PnL, and headroom on
the staircase.  `boot_elapsed_ms` is `boot_time.elapsed().as_millis()`. -/
def ProvisionalExecutive.attempt_promotion (e : ProvisionalExecutive)
    (boot_elapsed_ms : ℚ) : Bool × ProvisionalExecutive :=
  if e.consecutive_stable_cycles < e.required_stable_cycles then (false, e)
  else if boot_elapsed_ms < WARMUP_DURATION_MS then (false, e)
  else if e.shadow_pnl_window.sum ≤ 0 then (false, e)
  else if e.current_tier_index < SAFETY_STAIRCASE.length - 1 then
    (true, { e with current_tier_index := e.current_tier_index + 1,
                    consecutive_stable_cycles := 0 })
  else (false, e)

/-- `ProvisionalExecutive::update`: score the physics, update the stability
counter (emergency freeze to tier 0 on a score ≥ 9), push the mock shadow
PnL sample, then attempt a promotion. -/
def ProvisionalExecutive.update (e : ProvisionalExecutive)
    (physics : PhysicsState) (entropy efficiency boot_elapsed_ms : ℚ) :
    Bool × ProvisionalExecutive :=
  let score := calculate_stability_score physics.jerk entropy efficiency
  let e1 :=
    if score ≤ 3 then
      { e with consecutive_stable_cycles := e.consecutive_stable_cycles + 1 }
    else if score ≥ 9 then
      { e with consecutive_stable_cycles := 0, current_tier_index := 0 }
    else
      { e with consecutive_stable_cycles := 0 }
  let mock_pnl : ℚ := if score ≤ 5 then 1 else -1
  let e2 := e1.update_shadow_sim mock_pnl
  e2.attempt_promotion boot_elapsed_ms

/-! ## OODA decision stage (`governor/ooda_loop.rs`) -/

/-- `Action` of a `Decision`. -/
inductive Action where
  | Buy : ℚ → Action
  | Sell : ℚ → Action
  | Hold : Action
  | Reduce : ℚ → Action
  | Halt : Action
  deriving Repr, DecidableEq

/-- `Decision`: action, free-text reason, confidence. -/
structure Decision where
  action : Action
  reason : String
  confidence : ℚ
  deriving Repr, DecidableEq

/-- `OODAState` attached to a Ψ-state (the source's `oriented_at : Instant`
is dropped; `decide` never reads it). -/
structure OODAState where
  physics : PhysicsState
  sentiment_score : Option ℚ
  nearest_regime : Option String
  vector_distance : Option ℚ
  trace_id : String
  brain_latency : Option ℚ
  deriving Repr, DecidableEq

/-- `StrategicBias` (`governor/legislator.rs`). -/
inductive StrategicBias where
  | Neutral
  | LongOnly
  | ShortOnly
  deriving Repr, DecidableEq

/-- `LegislativeState` (`governor/legislator.rs`). -/
structure LegislativeState where
  bias : StrategicBias
  aggression : ℚ
  maker_only : Bool
  hibernation : Bool
  deriving Repr, DecidableEq

/-- `LegislativeState::default()`. -/
def LegislativeState.default : LegislativeState :=
  ⟨StrategicBias.Neutral, 1, false, false⟩

/-- The omega ratio `OODACore::decide` passes to the veto gate: the source
hard-codes `let mock_omega = 1.2;`. -/
def MOCK_OMEGA : ℚ := 6/5

/-- Signal-to-decision tail of `OODACore::decide` (steps 6 and D-107): the
sized Buy / Sell / Hold construction followed by the legislative veto. -/
def decisionOfSignal (base_signal max_risk : ℚ)
    (legislation : LegislativeState) : Decision :=
  let d :=
    if base_signal ≥ 1/2 then
      { action := Action.Buy (max_risk * |base_signal|),
        reason := "Physics & Sentiment Aligned.", confidence := 9/10 : Decision }
    else if base_signal ≤ -(1/2) then
      { action := Action.Sell (max_risk * |base_signal|),
        reason := "Physics Bearish", confidence := 9/10 }
    else
      { action := Action.Hold, reason := "Uncertain / Risk Floor",
        confidence := 1/2 }
  match legislation.bias with
  | StrategicBias.LongOnly =>
      match d.action with
      | Action.Sell _ =>
          { action := Action.Hold, reason := "Legislative Veto: Long Only",
            confidence := 1 }
      | _ => d
  | StrategicBias.ShortOnly =>
      match d.action with
      | Action.Buy _ =>
          { action := Action.Hold, reason := "Legislative Veto: Short Only",
            confidence := 1 }
      | _ => d
  | StrategicBias.Neutral => d

/-- `OODACore::decide`.  Returns the decision together with the updated
veto gate and provisional executive (the source mutates them in place).
`decayFactor` is the sentiment decay factor at the hard-stop check;
`boot_elapsed_ms` is the provisional executive's uptime.  The forensic
fan-out (`log_forensics`) only clones the packet onto channels and is not
modelled. -/
def OODACore.decide (state : OODAState) (legislation : LegislativeState)
    (gate : VetoGate) (prov : ProvisionalExecutive)
    (decayFactor boot_elapsed_ms : ℚ) :
    Decision × VetoGate × ProvisionalExecutive :=
  let physics := state.physics
  let gate1 :=
    match state.sentiment_score with
    | some s => gate.update_sentiment s
    | none => gate
  if gate1.check_hard_stop physics MOCK_OMEGA decayFactor then
    ({ action := Action.Halt,
       reason := "NUCLEAR VETO: Sentiment + Physics Collapse",
       confidence := 1 }, gate1, prov)
  else
    let upd := prov.update physics physics.entropy physics.efficiency_index
      boot_elapsed_ms
    let prov1 := upd.2
    let max_risk := prov1.get_current_max_risk
    let base_signal : ℚ := if physics.acceleration > 0 then 1 else -1
    match state.sentiment_score with
    | some sentiment =>
        if base_signal > 0 ∧ sentiment < -(1/2) then
          ({ action := Action.Hold,
             reason := "VETO: Hypatia Sentiment overruled Physics.",
             confidence := 1 }, gate1, prov1)
        else
          (decisionOfSignal base_signal max_risk legislation, gate1, prov1)
    | none =>
        (decisionOfSignal (base_signal * (1/2)) max_risk legislation,
         gate1, prov1)

/-! ## Risk staircase (`governor/staircase.rs`) -/

/-- `RiskTier`. -/
inductive RiskTier where
  | Q0
  | Q1
  | Q2
  | Q3
  | Q4
  | Max
  deriving Repr, DecidableEq

/-- `RiskTier::position_size`. -/
def RiskTier.position_size : RiskTier → ℚ
  | RiskTier.Q0 => 1/100
  | RiskTier.Q1 => 5/100
  | RiskTier.Q2 => 1/10
  | RiskTier.Q3 => 1/4
  | RiskTier.Q4 => 1/2
  | RiskTier.Max => 1

/-- `RiskTier::next`. -/
def RiskTier.next : RiskTier → Option RiskTier
  | RiskTier.Q0 => some RiskTier.Q1
  | RiskTier.Q1 => some RiskTier.Q2
  | RiskTier.Q2 => some RiskTier.Q3
  | RiskTier.Q3 => some RiskTier.Q4
  | RiskTier.Q4 => some RiskTier.Max
  | RiskTier.Max => none

/-- `Staircase`.  `Instant`s become rational timestamps in seconds. -/
structure Staircase where
  current_tier : RiskTier
  consecutive_tight_fills : ℕ
  veto_count : ℕ
  last_veto_time : Option ℚ
  cooldown_until : Option ℚ
  deriving Repr, DecidableEq

/-- `Staircase::new()`. -/
def Staircase.new : Staircase := ⟨RiskTier.Q0, 0, 0, none, none⟩

/-- `Instant::duration_since` saturates at zero when the argument is in
the future. -/
def durationSince (now earlier : ℚ) : ℚ := max (now - earlier) 0

/-- `Staircase::is_in_cooldown` at instant `now`. -/
def Staircase.is_in_cooldown (s : Staircase) (now : ℚ) : Bool :=
  match s.cooldown_until with
  | some u => decide (now < u)
  | none => false

/-- `Staircase::get_position_size`: the tier-0 floor during cooldown. -/
def Staircase.get_position_size (s : Staircase) (now : ℚ) : ℚ :=
  if s.is_in_cooldown now then RiskTier.Q0.position_size
  else s.current_tier.position_size

/-- `Staircase::register_fill`. -/
def Staircase.register_fill (s : Staircase) (slippage_bps : ℚ) : Staircase :=
  if |slippage_bps| ≤ 2 then
    { s with consecutive_tight_fills := s.consecutive_tight_fills + 1 }
  else
    { s with consecutive_tight_fills := 0 }

/-- `Staircase::try_promote`: blocked during cooldown; needs 50 tight
fills and consensus above 0.85. -/
def Staircase.try_promote (s : Staircase) (now consensus_score : ℚ) :
    Bool × Staircase :=
  if s.is_in_cooldown now then (false, s)
  else if s.consecutive_tight_fills ≥ 50 ∧ consensus_score > 17/20 then
    match s.current_tier.next with
    | some next_tier =>
        (true, { s with current_tier := next_tier,
                        consecutive_tight_fills := 0 })
    | none => (false, s)
  else (false, s)

/-- `Staircase::register_veto` at instant `now`: the counter resets when
more than 60 minutes passed since the previous veto; at three in-window
vetoes a 4-hour cooldown starts, the tier drops to the floor
(`demote_to_floor`) and the counter clears. -/
def Staircase.register_veto (s : Staircase) (now : ℚ) : Staircase :=
  let vc :=
    match s.last_veto_time with
    | some last_time => if durationSince now last_time > 3600 then 0 else s.veto_count
    | none => s.veto_count
  let vc1 := vc + 1
  let s1 := { s with veto_count := vc1, last_veto_time := some now }
  if vc1 ≥ 3 then
    { s1 with cooldown_until := some (now + 4 * 3600),
              current_tier := RiskTier.Q0,
              consecutive_tight_fills := 0,
              veto_count := 0 }
  else s1

/-! ## Cognitive firewall (`auditor/firewall.rs`, `auditor/truth_envelope.rs`) -/

/-- `FirewallError`. -/
inductive FirewallError where
  | NumericHallucination (claimed truth delta : ℚ)
  | RegimeMismatch (claimed : String) (truth_id : ℕ)
  | SchemaViolation (msg : String)
  deriving Repr, DecidableEq

/-- `LlmInferenceResponse`. -/
structure LlmInferenceResponse where
  reasoning : String
  decision : String
  confidence : ℚ
  referenced_price : Option ℚ
  regime_classification : Option String
  deriving Repr, DecidableEq

/-- `TruthEnvelope` (`regime_id` is a `u8`, `sequence_id` a `u64`). -/
structure TruthEnvelope where
  timestamp : ℚ
  velocity : ℚ
  acceleration : ℚ
  jerk : ℚ
  sentiment_score : ℚ
  mid_price : ℚ
  bid_ask_spread : ℚ
  regime_id : ℕ
  sequence_id : ℕ
  deriving Repr, DecidableEq

/-- `Firewall`: carries the numeric anchor tolerance. -/
structure Firewall where
  tolerance : ℚ
  deriving Repr, DecidableEq

/-- `Firewall::new()`: tolerance 0.5%. -/
def Firewall.new : Firewall := ⟨5/1000⟩

/-- `Firewall::validate`: the numeric anchor check (skipped unless
`mid_price > f64::EPSILON`), then the regime continuity guard against the
fixed table 1↔LAMINAR, 2↔TURBULENT, 3↔VIOLENT/DECOHERENT. -/
def Firewall.validate (fw : Firewall) (response : LlmInferenceResponse)
    (truth : TruthEnvelope) : Except FirewallError Unit :=
  let numeric : Option FirewallError :=
    match response.referenced_price with
    | some price =>
        if truth.mid_price > f64Eps then
          let delta_pct := |price - truth.mid_price| / truth.mid_price
          if delta_pct > fw.tolerance then
            some (FirewallError.NumericHallucination price truth.mid_price delta_pct)
          else none
        else none
    | none => none
  match numeric with
  | some e => Except.error e
  | none =>
      match response.regime_classification with
      | some regime_str =>
          let upper := regime_str.toUpper
          let valid : Bool :=
            (decide (truth.regime_id = 1) && decide (upper = "LAMINAR")) ||
            (decide (truth.regime_id = 2) && decide (upper = "TURBULENT")) ||
            (decide (truth.regime_id = 3) &&
              (decide (upper = "VIOLENT") || decide (upper = "DECOHERENT")))
          if valid then Except.ok ()
          else Except.error (FirewallError.RegimeMismatch regime_str truth.regime_id)
      | none => Except.ok ()

/-- True exactly on `Err(NumericHallucination ..)` results. -/
def isNumericHallucination : Except FirewallError Unit → Bool
  | Except.error (FirewallError.NumericHallucination _ _ _) => true
  | _ => false

/-! ## Nullifier (`auditor/nullifier.rs`) -/

/-- `NullifiedPacket` (the `Instant` timestamp becomes a rational). -/
structure NullifiedPacket where
  timestamp : ℚ
  error : FirewallError
  raw_reasoning : String
  deriving Repr, DecidableEq

/-- `Nullifier`. -/
structure Nullifier where
  consecutive_failures : ℕ
  grave_buffer : List NullifiedPacket
  max_grave_size : ℕ
  amr_threshold : ℕ
  deriving Repr, DecidableEq

/-- `Nullifier::new()`. -/
def Nullifier.new : Nullifier := ⟨0, [], 100, 3⟩

/-- `Nullifier::nullify`: count the failure, bury the packet (evicting the
oldest at capacity), and signal an AMR — clearing the counter — when the
count reaches the threshold.  Returns the AMR flag with the new state. -/
def Nullifier.nullify (n : Nullifier) (error : FirewallError)
    (raw_reasoning : String) (now : ℚ) : Bool × Nullifier :=
  let failures := n.consecutive_failures + 1
  let graves0 := if n.grave_buffer.length ≥ n.max_grave_size
                 then n.grave_buffer.tail else n.grave_buffer
  let graves := graves0 ++ [⟨now, error, raw_reasoning⟩]
  if failures ≥ n.amr_threshold then
    (true, { n with consecutive_failures := 0, grave_buffer := graves })
  else
    (false, { n with consecutive_failures := failures, grave_buffer := graves })

/-- `Nullifier::reset_continuity`: a valid reply clears the counter. -/
def Nullifier.reset_continuity (n : Nullifier) : Nullifier :=
  { n with consecutive_failures := 0 }

/-- `Nullifier::requires_demotion`: five consecutive failures. -/
def Nullifier.requires_demotion (n : Nullifier) : Bool :=
  decide (n.consecutive_failures ≥ 5)

/-- One external call into the nullifier: either a firewall failure
(`nullify`) or a successful reply (`reset_continuity`). -/
inductive NullifierOp where
  | fail (e : FirewallError) (r : String) (t : ℚ)
  | ok
  deriving Repr

/-- Replay a call sequence against a nullifier. -/
def Nullifier.run : Nullifier → List NullifierOp → Nullifier
  | n, [] => n
  | n, NullifierOp.fail e r t :: ops => Nullifier.run (n.nullify e r t).2 ops
  | n, NullifierOp.ok :: ops => Nullifier.run n.reset_continuity ops

/-! ## Shadow gate (`sequencer/shadow_gate.rs`) -/

/-- `ShadowStatus` (fill timestamp in nanos since epoch). -/
inductive ShadowStatus where
  | Pending
  | Filled (price : ℚ) (ts : ℕ)
  | Cancelled
  deriving Repr, DecidableEq

/-- `ShadowOrder`. -/
structure ShadowOrder where
  id : String
  symbol : String
  side : String
  qty : ℚ
  limit_price : ℚ
  created_at : ℕ
  status : ShadowStatus
  deriving Repr, DecidableEq

/-- `ShadowGate` (the `HashMap` book becomes a list of orders; `check_fills`
touches every entry independently, so the keying is irrelevant). -/
structure ShadowGate where
  symbol : String
  virtual_book : List ShadowOrder
  latency_simulation_ms : ℕ
  deriving Repr, DecidableEq

/-- `ShadowGate::new`: 500 ms simulated exchange latency. -/
def ShadowGate.new (symbol : String) : ShadowGate := ⟨symbol, [], 500⟩

/-- Per-order body of `ShadowGate::check_fills` at wall-clock `now` (nanos):
skip non-pending orders, skip orders still in flight, fill when the mark
crosses the limit.  Also returns the slippage `|mark − limit|` the source
computes (and logs) at the fill. -/
def checkFillOrder (latency_ns : ℕ) (current_price : ℚ) (now : ℕ)
    (order : ShadowOrder) : ShadowOrder × Option ℚ :=
  if order.status ≠ ShadowStatus.Pending then (order, none)
  else if now < order.created_at + latency_ns then (order, none)
  else
    let is_fill : Bool :=
      if order.side = "BUY" then decide (current_price ≤ order.limit_price)
      else if order.side = "SELL" then decide (current_price ≥ order.limit_price)
      else false
    if is_fill then
      let slippage := |current_price - order.limit_price|
      ({ order with status := ShadowStatus.Filled current_price now }, some slippage)
    else (order, none)

/-- `ShadowGate::check_fills`. -/
def ShadowGate.check_fills (g : ShadowGate) (current_price : ℚ) (now : ℕ) :
    ShadowGate :=
  let latency_ns := g.latency_simulation_ms * 1000000
  let book := g.virtual_book.map
    (fun o => (checkFillOrder latency_ns current_price now o).1)
  { g with virtual_book := book }

/-! ## Vitality sentinel (`governor/sentinel.rs`) -/

/-- `VitalityStatus`. -/
inductive VitalityStatus where
  | Optimal
  | Degraded
  | Critical
  deriving Repr, DecidableEq

/-- `Sentinel` (the `Instant` fields `last_tick` / `last_instability` are
replaced by passing each cycle's elapsed time to `tick`). -/
structure Sentinel where
  jitter_threshold_us : ℚ
  latency_threshold_us : ℚ
  history : List ℚ
  current_latency_us : ℚ
  current_jitter_us : ℚ
  status : VitalityStatus
  deriving Repr, DecidableEq

/-- `Sentinel::new()`: jitter threshold 50 µs. -/
def Sentinel.new : Sentinel := ⟨50, 1000, [], 0, 0, VitalityStatus.Optimal⟩

/-- `Sentinel::tick` with the measured loop latency `elapsed` (µs).
`sqrtFn` abstracts `f64::sqrt` applied to the population variance of the
100-sample ring; the variance is only taken once more than 10 samples are
present.  Status: Critical above twice the 50 µs jitter threshold,
Degraded above the threshold, Optimal otherwise. -/
def Sentinel.tick (sqrtFn : ℚ → ℚ) (s : Sentinel) (elapsed : ℚ) :
    Sentinel × VitalityStatus :=
  let history0 := if s.history.length ≥ 100 then s.history.tail else s.history
  let history := history0 ++ [elapsed]
  let count : ℚ := history.length
  let mean := history.sum / count
  let jitter :=
    if count > 10 then
      sqrtFn (((history.map (fun x => (x - mean) ^ 2)).sum) / count)
    else 0
  let new_status :=
    if jitter > s.jitter_threshold_us * 2 then VitalityStatus.Critical
    else if jitter > s.jitter_threshold_us then VitalityStatus.Degraded
    else VitalityStatus.Optimal
  ({ s with history := history,
            current_latency_us := elapsed,
            current_jitter_us := jitter,
            status := new_status }, new_status)

/-- Replay a sequence of loop-latency samples through the sentinel. -/
def Sentinel.run (sqrtFn : ℚ → ℚ) (s : Sentinel) (ticks : List ℚ) : Sentinel :=
  ticks.foldl (fun st e => (st.tick sqrtFn e).1) s

/-- Population variance of a latency ring, exactly as `tick` computes it. -/
def ringVariance (history : List ℚ) : ℚ :=
  let count : ℚ := history.length
  let mean := history.sum / count
  ((history.map (fun x => (x - mean) ^ 2)).sum) / count

/-- Exact square root on rationals whose numerator is a perfect square and
whose denominator is 1; used to instantiate `sqrtFn` on concrete runs. -/
def qsqrtExact (x : ℚ) : ℚ := (Nat.sqrt x.num.toNat : ℚ)

/-! ## Shared-memory historian ring (`historian/shm_buffer.rs`) -/

/-- `BUFFER_SIZE`: 16 K slots. -/
def BUFFER_SIZE : ℕ := 1024 * 16

/-- The ring: header indices plus the slot array, abstracted over the
256-byte POD event payload `α`.  `head` and `tail` are the monotonically
increasing `u64` indices of the source header. -/
structure ShmRingBuffer (α : Type) where
  head : ℕ
  tail : ℕ
  dropped : ℕ
  slots : Fin BUFFER_SIZE → α

/-- `ShmRingBuffer::write`: when `head − tail` reaches the capacity, bump
`dropped` and skip; otherwise copy the event into slot `head % BUFFER_SIZE`
and publish `head + 1`.  (`head ≥ tail` always holds in the SPSC protocol;
the `u64` subtraction is modelled by truncated `ℕ` subtraction.) -/
def ShmRingBuffer.write {α : Type} (b : ShmRingBuffer α) (event : α) :
    ShmRingBuffer α :=
  if b.head - b.tail ≥ BUFFER_SIZE then
    { b with dropped := b.dropped + 1 }
  else
    let slot_idx : Fin BUFFER_SIZE :=
      ⟨b.head % BUFFER_SIZE, Nat.mod_lt _ (by decide)⟩
    { b with slots := Function.update b.slots slot_idx event,
             head := b.head + 1 }

/-! ## Physics engine (`feynman.rs`) -/

/-- `PhysicsEngine`.  `history` lists `(timestamp, price)` pairs oldest
first (the `VecDeque` front is the list head). -/
structure PhysicsEngine where
  capacity : ℕ
  history : List (ℚ × ℚ)
  fast_window : ℕ
  slow_window : ℕ
  count : ℕ
  mean : ℚ
  m2 : ℚ
  prev_state : PhysicsState
  deriving Repr, DecidableEq

/-- `PhysicsEngine::new`. -/
def PhysicsEngine.new (capacity : ℕ) : PhysicsEngine :=
  ⟨capacity, [], 100, 1000, 0, 0, 0, PhysicsState.default⟩

/-- Minimum of a price-difference list, as the source's
`fold(INFINITY, min)` computes it on a non-empty list. -/
def qlistMin (l : List ℚ) : ℚ := l.foldl min (l.headD 0)

/-- Maximum of a price-difference list (`fold(NEG_INFINITY, max)`). -/
def qlistMax (l : List ℚ) : ℚ := l.foldl max (l.headD 0)

/-- `PhysicsEngine::calculate_entropy`: Shannon entropy of a 10-bin
equal-width histogram of first differences over the slow window.  `lnFn`
abstracts `f64::ln` (only the bin probabilities reach it). -/
def PhysicsEngine.calculate_entropy (lnFn : ℚ → ℚ) (e : PhysicsEngine) : ℚ :=
  let start_idx := if e.history.length > e.slow_window
                   then e.history.length - e.slow_window else 0
  let window := e.history.drop start_idx
  if window.length < 10 then 0
  else
    let returns := (window.zip window.tail).map (fun pc => pc.2.2 - pc.1.2)
    if returns.isEmpty then 0
    else
      let mn := qlistMin returns
      let mx := qlistMax returns
      if |mx - mn| < f64Eps then 0
      else
        let bin_width := (mx - mn) / 10
        let binIdxOf : ℚ → ℕ := fun r =>
          let i := (Int.floor ((r - mn) / bin_width)).toNat
          if i ≥ 10 then 9 else i
        let histogram := (List.range 10).map
          (fun b => (returns.filter (fun r => binIdxOf r = b)).length)
        let total : ℚ := returns.length
        histogram.foldl
          (fun acc c =>
            if 0 < c then acc - ((c : ℚ) / total) * lnFn ((c : ℚ) / total)
            else acc)
          0

/-- `PhysicsEngine::calculate_efficiency`: `|p_end − p_start|` over the sum
of absolute first differences of the slow window; degenerate zero-path
cases return 1 (non-zero direction) or 0. -/
def PhysicsEngine.calculate_efficiency (e : PhysicsEngine) : ℚ :=
  let start_idx := if e.history.length > e.slow_window
                   then e.history.length - e.slow_window else 0
  if e.history.length - start_idx < 5 then 0
  else
    let start_price := (e.history.getD start_idx (0, 0)).2
    let end_price := (e.history.getLastD (0, 0)).2
    let direction := |end_price - start_price|
    let tailHist := e.history.drop start_idx
    let volatility :=
      ((tailHist.zip tailHist.tail).map (fun pc => |pc.2.2 - pc.1.2|)).sum
    if volatility < f64Eps then
      if direction > 0 then 1 else 0
    else direction / volatility

/-- `PhysicsEngine::update` (HEAD signature: price, timestamp, sequence id,
spread).  Pushes the sample, advances the Welford state, derives the
windowed velocity and the step-wise acceleration and jerk, and recomputes
entropy/efficiency only every 10th tick once more than 50 samples exist.
A near-zero fast-window time delta returns the previous state with only
price/timestamp/sequence/spread refreshed and leaves `prev_state` alone.
`sqrtFn` abstracts `f64::sqrt` (realized volatility), `lnFn` abstracts
`f64::ln` (entropy). -/
def PhysicsEngine.update (sqrtFn lnFn : ℚ → ℚ) (e : PhysicsEngine)
    (price timestamp : ℚ) (sequence_id : ℕ) (spread : ℚ) :
    PhysicsState × PhysicsEngine :=
  let history0 := if e.history.length ≥ e.capacity then e.history.tail
                  else e.history
  let history := history0 ++ [(timestamp, price)]
  let count := e.count + 1
  let return_val := if e.prev_state.price ≠ 0
                    then (price - e.prev_state.price) / e.prev_state.price
                    else 0
  let delta := return_val - e.mean
  let mean := e.mean + delta / (count : ℚ)
  let delta2 := return_val - mean
  let m2 := e.m2 + delta * delta2
  let variance := if count < 2 then 0 else m2 / ((count : ℚ) - 1)
  let volatility := sqrtFn variance
  let past := if history.length > e.fast_window
              then history.getD (history.length - 1 - e.fast_window) (0, 0)
              else history.getD 0 (0, 0)
  let dt_fast := timestamp - past.1
  if |dt_fast| < f64Eps then
    ({ e.prev_state with timestamp := timestamp, price := price,
                         sequence_id := sequence_id,
                         bid_ask_spread := spread },
     { e with history := history, count := count, mean := mean, m2 := m2 })
  else
    let velocity := (price - past.2) / dt_fast
    let dt_step := timestamp - e.prev_state.timestamp
    let accel_jerk :=
      if dt_step > f64Eps then
        let a := (velocity - e.prev_state.velocity) / dt_step
        (a, (a - e.prev_state.acceleration) / dt_step)
      else ((0 : ℚ), (0 : ℚ))
    let e_mid : PhysicsEngine :=
      { e with history := history, count := count, mean := mean, m2 := m2 }
    let ent_eff :=
      if count % 10 = 0 ∧ history.length > 50 then
        (e_mid.calculate_entropy lnFn, e_mid.calculate_efficiency)
      else (e.prev_state.entropy, e.prev_state.efficiency_index)
    let new_state : PhysicsState :=
      { timestamp := timestamp, price := price, velocity := velocity,
        acceleration := accel_jerk.1, jerk := accel_jerk.2,
        volatility := volatility, entropy := ent_eff.1,
        efficiency_index := ent_eff.2, basis := 0,
        bid_ask_spread := spread, sequence_id := sequence_id }
    (new_state, { e_mid with prev_state := new_state })

/-- Feed a list of `(price, timestamp)` ticks to the engine; returns the
last emitted Ψ-state (starting from `PhysicsState.default`) with the final
engine. -/
def PhysicsEngine.runTicks (sqrtFn lnFn : ℚ → ℚ) (e : PhysicsEngine)
    (ticks : List (ℚ × ℚ)) : PhysicsState × PhysicsEngine :=
  ticks.foldl
    (fun acc pt => acc.2.update sqrtFn lnFn pt.1 pt.2 0 0)
    (PhysicsState.default, e)

/-- The S4 chopping scenario: prices 10,11,10,11,10,11 at t = 0..5. -/
def choppingTicks : List (ℚ × ℚ) :=
  [(10, 0), (11, 1), (10, 2), (11, 3), (10, 4), (11, 5)]

/-- A degenerate stand-in for the abstracted `sqrt` / `ln`; the theorems
that use it are independent of the abstracted operation's values. -/
def zeroFn : ℚ → ℚ := fun _ => 0

/-! ## Helper lemmas -/

/-- The signal-to-decision tail never emits `Halt`. -/
theorem decisionOfSignal_action_ne_halt (b m : ℚ) (l : LegislativeState) :
    (decisionOfSignal b m l).action ≠ Action.Halt := by
  unfold decisionOfSignal
  rcases l.bias <;> split_ifs <;> simp

/-- What a `Buy` out of the signal tail says about signal and size. -/
theorem decisionOfSignal_buy (b m q : ℚ) (l : LegislativeState)
    (h : (decisionOfSignal b m l).action = Action.Buy q) :
    q = m * |b| ∧ 1/2 ≤ b := by
  unfold decisionOfSignal at h
  split_ifs at h with h1 h2 <;> cases hl : l.bias <;> simp [hl] at h <;>
    exact ⟨h.symm, h1⟩

/-- During warm-up `attempt_promotion` is a no-op. -/
theorem attempt_promotion_warmup (e : ProvisionalExecutive) (em : ℚ)
    (h : em < WARMUP_DURATION_MS) : e.attempt_promotion em = (false, e) := by
  unfold ProvisionalExecutive.attempt_promotion
  split_ifs <;> rfl

/-- During warm-up, `update` keeps (or forces) tier 0. -/
theorem update_tier_zero (e : ProvisionalExecutive) (p : PhysicsState)
    (ent eff em : ℚ) (h0 : e.current_tier_index = 0)
    (hw : em < WARMUP_DURATION_MS) :
    ((e.update p ent eff em).2).current_tier_index = 0 := by
  simp only [ProvisionalExecutive.update, ProvisionalExecutive.update_shadow_sim]
  split_ifs <;> rw [attempt_promotion_warmup _ _ hw] <;> simp [h0]

/-! ## Claim theorems -/

/-- C1.  Nuclear veto: `check_hard_stop` returns true exactly when the
decayed sentiment is below −0.9 AND |jerk| exceeds 50 AND the omega-ratio
proxy is below 1.0 (so removing any one condition prevents the halt), and
the Decide stage returns `Halt` exactly when `check_hard_stop` fires on the
freshly updated gate with the omega proxy of the decision (the source
hard-codes it to 1.2). -/
theorem C1_nuclear_veto :
    (∀ (g : VetoGate) (p : PhysicsState) (omega d : ℚ),
        g.check_hard_stop p omega d = true ↔
          (g.last_sentiment_score * d < -(9/10) ∧ |p.jerk| > 50 ∧ omega < 1)) ∧
    (∀ (state : OODAState) (leg : LegislativeState) (g : VetoGate)
        (prov : ProvisionalExecutive) (d em : ℚ),
        (OODACore.decide state leg g prov d em).1.action = Action.Halt ↔
          (match state.sentiment_score with
            | some s => g.update_sentiment s
            | none => g).check_hard_stop state.physics MOCK_OMEGA d = true) := by
  constructor
  · intro g p omega d
    simp [VetoGate.check_hard_stop, and_assoc]
  · intro state leg g prov d em
    cases hs : state.sentiment_score with
    | none =>
        simp only [OODACore.decide, hs]
        split
        next hc => simp_all
        next hc => simp_all [decisionOfSignal_action_ne_halt]
    | some s =>
        simp only [OODACore.decide, hs]
        split
        next hc => simp_all
        next hc =>
          split_ifs <;> simp_all [decisionOfSignal_action_ne_halt]

/-- C2.  Blind safety: with sentiment absent, any Buy the Decide stage
emits has size exactly half the current max risk of the (post-update)
provisional executive, hence at most 0.5 × max_risk; at tier 0 during
warm-up the size is at most 0.0051. -/
theorem C2_blind_safety (state : OODAState) (leg : LegislativeState)
    (gate : VetoGate) (prov : ProvisionalExecutive) (d em q : ℚ)
    (hblind : state.sentiment_score = none)
    (hbuy : (OODACore.decide state leg gate prov d em).1.action = Action.Buy q) :
    q ≤ (1/2) *
      (OODACore.decide state leg gate prov d em).2.2.get_current_max_risk ∧
    (prov.current_tier_index = 0 → em < WARMUP_DURATION_MS → q ≤ 51/10000) := by
  unfold OODACore.decide at hbuy ⊢
  simp only [hblind] at hbuy ⊢
  by_cases hc : gate.check_hard_stop state.physics MOCK_OMEGA d = true
  · simp [hc] at hbuy
  · simp only [Bool.not_eq_true] at hc
    simp only [hc, Bool.false_eq_true, if_false] at hbuy ⊢
    obtain ⟨hq, hb⟩ := decisionOfSignal_buy _ _ _ _ hbuy
    by_cases hacc : state.physics.acceleration > 0
    · simp only [hacc, if_true] at hq hb
      rw [hq]
      have habs : |(1 : ℚ) * (1/2)| = 1/2 := by norm_num
      rw [habs]
      constructor
      · linarith [le_refl
          ((prov.update state.physics state.physics.entropy
            state.physics.efficiency_index em).2.get_current_max_risk * (1/2))]
      · intro h0 hw
        have ht := update_tier_zero prov state.physics state.physics.entropy
          state.physics.efficiency_index em h0 hw
        simp only [ProvisionalExecutive.get_current_max_risk, ht, SAFETY_STAIRCASE]
        norm_num
    · simp only [hacc, if_false] at hb
      norm_num at hb

/-- The S5 scenario state: no sentiment, acceleration 5, default physics. -/
def c2State : OODAState :=
  { physics := { PhysicsState.default with acceleration := 5 },
    sentiment_score := none, nearest_regime := none, vector_distance := none,
    trace_id := "", brain_latency := none }

/-- C2 witness: the S5 scenario — blind cycle, acceleration 5, fresh tier-0
executive during warm-up — emits `Buy 0.005`, within both bounds. -/
theorem C2_blind_safety_witness :
    (OODACore.decide c2State LegislativeState.default VetoGate.new
      ProvisionalExecutive.new 1 0).1.action = Action.Buy (1/200) ∧
    (1/200 : ℚ) ≤ (1/2) * (OODACore.decide c2State LegislativeState.default
      VetoGate.new ProvisionalExecutive.new 1 0).2.2.get_current_max_risk ∧
    (1/200 : ℚ) ≤ 51/10000 := by
  have hbuy : (OODACore.decide c2State LegislativeState.default VetoGate.new
      ProvisionalExecutive.new 1 0).1.action = Action.Buy (1/200) := by
    norm_num [OODACore.decide, c2State, PhysicsState.default, VetoGate.new,
      VetoGate.check_hard_stop, MOCK_OMEGA, ProvisionalExecutive.new,
      ProvisionalExecutive.update, ProvisionalExecutive.update_shadow_sim,
      ProvisionalExecutive.attempt_promotion,
      ProvisionalExecutive.get_current_max_risk, calculate_stability_score,
      SAFETY_STAIRCASE, WARMUP_DURATION_MS, decisionOfSignal, Rat.ceil,
      LegislativeState.default]
    rw [abs_of_pos (by norm_num : (0:ℚ) < 1/2)]
    norm_num
  have h := C2_blind_safety c2State LegislativeState.default VetoGate.new
    ProvisionalExecutive.new 1 0 (1/200) rfl hbuy
  exact ⟨hbuy, h.1, h.2 rfl (by norm_num [WARMUP_DURATION_MS])⟩

/-- C3.  Staircase cooldown: three vetoes whose timestamps fit in a rolling
60-minute window put the staircase into a 4-hour cooldown ending at
`t3 + 14400 s`; while any staircase is in cooldown, `get_position_size` is
the tier-0 floor 0.01 and `try_promote` fails, whatever the accumulated
tight fills and consensus score. -/
theorem C3_staircase_cooldown (t1 t2 t3 : ℚ)
    (h12 : t1 ≤ t2) (h23 : t2 ≤ t3) (hwin : t3 - t1 ≤ 3600) :
    (((Staircase.new.register_veto t1).register_veto t2).register_veto t3).cooldown_until
        = some (t3 + 14400) ∧
    (((Staircase.new.register_veto t1).register_veto t2).register_veto t3).current_tier
        = RiskTier.Q0 ∧
    (∀ now : ℚ, t3 ≤ now → now < t3 + 14400 →
      (((Staircase.new.register_veto t1).register_veto t2).register_veto t3).is_in_cooldown now = true) ∧
    (∀ (s : Staircase) (now c : ℚ), s.is_in_cooldown now = true →
      s.get_position_size now = 1/100 ∧ (s.try_promote now c).1 = false) := by
  have hd2 : ¬ durationSince t2 t1 > 3600 := by
    simp only [durationSince, not_lt]
    exact max_le (by linarith) (by norm_num)
  have hd3 : ¬ durationSince t3 t2 > 3600 := by
    simp only [durationSince, not_lt]
    exact max_le (by linarith) (by norm_num)
  have e1 : Staircase.new.register_veto t1 =
      ⟨RiskTier.Q0, 0, 1, some t1, none⟩ := by
    simp [Staircase.register_veto, Staircase.new]
  have e2 : (Staircase.new.register_veto t1).register_veto t2 =
      ⟨RiskTier.Q0, 0, 2, some t2, none⟩ := by
    rw [e1]
    simp [Staircase.register_veto, hd2]
  have e3 : ((Staircase.new.register_veto t1).register_veto t2).register_veto t3 =
      ⟨RiskTier.Q0, 0, 0, some t3, some (t3 + 4 * 3600)⟩ := by
    rw [e2]
    simp [Staircase.register_veto, hd3]
  refine ⟨?_, ?_, ?_, ?_⟩
  · rw [e3]
    norm_num
  · rw [e3]
  · intro now _ hlt
    rw [e3]
    simp only [Staircase.is_in_cooldown, decide_eq_true_eq]
    linarith
  · intro s now c hcool
    constructor
    · simp [Staircase.get_position_size, hcool, RiskTier.position_size]
    · simp [Staircase.try_promote, hcool]

/-- C3 witness: three immediate vetoes at t = 0, 10, 20 lock the staircase
at the floor and block promotion at t = 100 even with 50 tight fills and
full consensus. -/
theorem C3_staircase_cooldown_witness :
    (((Staircase.new.register_veto 0).register_veto 10).register_veto 20).cooldown_until
        = some (20 + 14400) ∧
    (((Staircase.new.register_veto 0).register_veto 10).register_veto 20).is_in_cooldown 100 = true ∧
    (((Staircase.new.register_veto 0).register_veto 10).register_veto 20).get_position_size 100 = 1/100 ∧
    ((((Staircase.new.register_veto 0).register_veto 10).register_veto 20).try_promote 100 1).1 = false := by
  have h := C3_staircase_cooldown 0 10 20 (by norm_num) (by norm_num) (by norm_num)
  have hcool := h.2.2.1 100 (by norm_num) (by norm_num)
  have hfloor := h.2.2.2 _ 100 1 hcool
  exact ⟨h.1, hcool, hfloor.1, hfloor.2⟩

/-- Envelope with mid-price 100 (the spec's concrete firewall scenario). -/
def c4Truth100 : TruthEnvelope := ⟨0, 0, 0, 0, 0, 100, 0, 0, 0⟩

/-- Envelope with a positive mid-price below `f64::EPSILON`. -/
def c4TruthTiny : TruthEnvelope := ⟨0, 0, 0, 0, 0, 1 / 2 ^ 53, 0, 0, 0⟩

/-- Reply claiming a referenced price of 100.4. -/
def c4RespPass : LlmInferenceResponse := ⟨"", "", 1, some (502/5), none⟩

/-- Reply claiming a referenced price of 100.6. -/
def c4RespFail : LlmInferenceResponse := ⟨"", "", 1, some (503/5), none⟩

/-- Reply claiming a referenced price of 1. -/
def c4RespOne : LlmInferenceResponse := ⟨"", "", 1, some 1, none⟩

/-- C4 counterexample: the claim quantifies over every envelope with
positive mid-price, but `validate` skips the numeric check whenever the
mid-price is at most `f64::EPSILON`.  With mid-price 2⁻⁵³ > 0 and a claimed
price of 1 the relative deviation (2⁵³ − 1) vastly exceeds the 0.5%
tolerance, yet `validate` returns `Ok`. -/
theorem C4_counterexample :
    0 < c4TruthTiny.mid_price ∧
    c4RespOne.referenced_price = some 1 ∧
    |(1 : ℚ) - c4TruthTiny.mid_price| / c4TruthTiny.mid_price > 5/1000 ∧
    Firewall.new.validate c4RespOne c4TruthTiny = Except.ok () := by
  refine ⟨by norm_num [c4TruthTiny], rfl, ?_, ?_⟩
  · have hmid : c4TruthTiny.mid_price = 1 / 2 ^ 53 := rfl
    have habs : |(1 : ℚ) - 1 / 2 ^ 53| = 1 - 1 / 2 ^ 53 :=
      abs_of_pos (by norm_num)
    rw [hmid, habs]
    norm_num
  · norm_num [Firewall.validate, Firewall.new, c4RespOne, c4TruthTiny, f64Eps]

/-- C4 (amended).  For every reply carrying a claimed referenced price and
every envelope whose mid-price exceeds `f64::EPSILON` (not merely zero),
`validate` returns `Err(NumericHallucination)` iff the relative deviation
exceeds the 0.5% tolerance; with mid = 100, a claimed 100.4 passes and a
claimed 100.6 fails with deviation 0.6%. -/
theorem C4_firewall_numeric_gate :
    (∀ (resp : LlmInferenceResponse) (truth : TruthEnvelope) (p : ℚ),
      resp.referenced_price = some p →
      truth.mid_price > f64Eps →
      (isNumericHallucination (Firewall.new.validate resp truth) = true ↔
        |p - truth.mid_price| / truth.mid_price > 5/1000)) ∧
    Firewall.new.validate c4RespPass c4Truth100 = Except.ok () ∧
    Firewall.new.validate c4RespFail c4Truth100 =
      Except.error (FirewallError.NumericHallucination (503/5) 100 (3/500)) := by
  refine ⟨?_, ?_, ?_⟩
  · intro resp truth p href hmid
    unfold Firewall.validate
    simp only [href, Firewall.new, if_pos hmid]
    by_cases hd : |p - truth.mid_price| / truth.mid_price > 5/1000
    · simp [hd, isNumericHallucination]
    · simp only [hd, if_false]
      simp only [eq_self_iff_true, iff_false]
      cases hreg : resp.regime_classification with
      | none => simp [isNumericHallucination, hd]
      | some r =>
          simp only [isNumericHallucination]
          split_ifs <;> simp [hd]
  · have habs : |(2 : ℚ)/5| = 2/5 := abs_of_pos (by norm_num)
    norm_num [Firewall.validate, Firewall.new, c4RespPass, c4Truth100,
      f64Eps, habs]
  · have habs : |(3 : ℚ)/5| = 3/5 := abs_of_pos (by norm_num)
    norm_num [Firewall.validate, Firewall.new, c4RespFail, c4Truth100,
      f64Eps, habs]

/-- C4 witness: the amended gate applied at mid = 100, claimed 100.6. -/
theorem C4_firewall_numeric_gate_witness :
    isNumericHallucination (Firewall.new.validate c4RespFail c4Truth100) = true := by
  have h := C4_firewall_numeric_gate.1 c4RespFail c4Truth100 (503/5) rfl
    (by norm_num [c4Truth100, f64Eps])
  refine h.mpr ?_
  have habs : |(3 : ℚ)/5| = 3/5 := abs_of_pos (by norm_num)
  norm_num [c4Truth100, habs]

/-- C5.  Nullifier AMR: from a clean counter (threshold 3 as in
`Nullifier::new`), the first two `nullify` calls return false, the third
returns true and clears the counter, and any `reset_continuity` call
zeroes the counter. -/
theorem C5_nullifier_amr (n : Nullifier) (e1 e2 e3 : FirewallError)
    (r1 r2 r3 : String) (t1 t2 t3 : ℚ)
    (h0 : n.consecutive_failures = 0) (hth : n.amr_threshold = 3) :
    (n.nullify e1 r1 t1).1 = false ∧
    ((n.nullify e1 r1 t1).2.nullify e2 r2 t2).1 = false ∧
    (((n.nullify e1 r1 t1).2.nullify e2 r2 t2).2.nullify e3 r3 t3).1 = true ∧
    (((n.nullify e1 r1 t1).2.nullify e2 r2 t2).2.nullify e3 r3 t3).2.consecutive_failures = 0 ∧
    ∀ m : Nullifier, m.reset_continuity.consecutive_failures = 0 := by
  simp [Nullifier.nullify, Nullifier.reset_continuity, h0, hth]

/-- C5 witness: the streak from `Nullifier::new` with three schema
violations. -/
theorem C5_nullifier_amr_witness :
    ((((Nullifier.new.nullify (FirewallError.SchemaViolation "a") "x" 0).2.nullify
        (FirewallError.SchemaViolation "b") "y" 1).2.nullify
        (FirewallError.SchemaViolation "c") "z" 2)).1 = true := by
  have h := C5_nullifier_amr Nullifier.new (FirewallError.SchemaViolation "a")
    (FirewallError.SchemaViolation "b") (FirewallError.SchemaViolation "c")
    "x" "y" "z" 0 1 2 rfl rfl
  exact h.2.2.1

/-- C6.  Shadow fill semantics: non-pending orders are untouched; a pending
BUY (resp. SELL) order transitions to `Filled` exactly when the simulated
latency has elapsed and the mark is at or below (resp. at or above) the
limit, recording the mark as fill price and `|mark − limit|` as slippage;
a status only ever moves from `Pending` to `Filled`; `check_fills` applies
this to every book entry; and the default simulated latency is 500 ms. -/
theorem C6_shadow_fill (lat : ℕ) (mark : ℚ) (now : ℕ) (order : ShadowOrder) :
    (order.status ≠ ShadowStatus.Pending →
      checkFillOrder lat mark now order = (order, none)) ∧
    (order.status = ShadowStatus.Pending → order.side = "BUY" →
      (checkFillOrder lat mark now order =
        ({ order with status := ShadowStatus.Filled mark now },
          some |mark - order.limit_price|) ↔
        (order.created_at + lat ≤ now ∧ mark ≤ order.limit_price))) ∧
    (order.status = ShadowStatus.Pending → order.side = "SELL" →
      (checkFillOrder lat mark now order =
        ({ order with status := ShadowStatus.Filled mark now },
          some |mark - order.limit_price|) ↔
        (order.created_at + lat ≤ now ∧ order.limit_price ≤ mark))) ∧
    ((checkFillOrder lat mark now order).1 = order ∨
      (checkFillOrder lat mark now order).1 =
        { order with status := ShadowStatus.Filled mark now }) ∧
    (∀ (g : ShadowGate) (cp : ℚ) (tn : ℕ),
      (g.check_fills cp tn).virtual_book = g.virtual_book.map
        (fun o => (checkFillOrder (g.latency_simulation_ms * 1000000) cp tn o).1)) ∧
    (∀ sym : String, (ShadowGate.new sym).latency_simulation_ms = 500) := by
  refine ⟨?_, ?_, ?_, ?_, ?_, ?_⟩
  · intro h
    simp [checkFillOrder, h]
  · intro hp hside
    by_cases hl : now < order.created_at + lat
    · simp only [checkFillOrder, hp, hside, hl]
      simp only [ne_eq, not_true_eq_false, if_false, if_true, Prod.mk.injEq]
      simp
      omega
    · by_cases hf : mark ≤ order.limit_price
      · simp only [checkFillOrder, hp, hside, hl]
        simp [hf]
        omega
      · simp only [checkFillOrder, hp, hside, hl]
        simp [hf]
  · intro hp hside
    have hsideB : order.side = "BUY" ↔ False := by simp [hside]
    by_cases hl : now < order.created_at + lat
    · simp only [checkFillOrder, hp, hside, hl]
      simp only [ne_eq, not_true_eq_false, if_false, if_true, Prod.mk.injEq]
      simp
      omega
    · by_cases hf : order.limit_price ≤ mark
      · simp only [checkFillOrder, hp, hside, hsideB, hl]
        simp [hf, ge_iff_le]
        omega
      · simp only [checkFillOrder, hp, hside, hsideB, hl]
        simp [hf, ge_iff_le]
  · unfold checkFillOrder
    split_ifs <;> simp <;> split_ifs <;> simp
  · intro g cp tn
    rfl
  · intro sym
    rfl

/-- C6 witness: the spec's shadow-determinism scenario — a pending BUY at
limit 50000 submitted at t = 0 with 10 ms latency fills at mark 49990 once
15 ms have elapsed, with slippage 10. -/
theorem C6_shadow_fill_witness :
    checkFillOrder 10000000 49990 15000000
        ⟨"o1", "BTC", "BUY", 1/2, 50000, 0, ShadowStatus.Pending⟩ =
      (⟨"o1", "BTC", "BUY", 1/2, 50000, 0, ShadowStatus.Filled 49990 15000000⟩,
        some 10) := by
  have h := (C6_shadow_fill 10000000 49990 15000000
    ⟨"o1", "BTC", "BUY", 1/2, 50000, 0, ShadowStatus.Pending⟩).2.1 rfl rfl
  have habs : |(49990 : ℚ) - 50000| = 10 := by
    rw [show (49990 : ℚ) - 50000 = -10 by norm_num]
    norm_num
  have hfill := h.mpr ⟨by norm_num, by norm_num⟩
  rw [hfill, habs]

/-- C7 counterexample: feeding 10,11,10,11,10,11 at t = 0..5 leaves the
last emitted Ψ-state's `efficiency_index` at 0, not 0.2 ± 1e−6 — the
entropy/efficiency recomputation requires the tick count to be a multiple
of 10 and more than 50 history samples, neither of which holds after six
ticks.  (`zeroFn` instantiates the abstracted `sqrt`/`ln`; by
`C7_chopping_efficiency` the efficiency fields are the same for every
instantiation.) -/
theorem C7_counterexample :
    ((PhysicsEngine.new 2000).runTicks zeroFn zeroFn choppingTicks).1.efficiency_index = 0 ∧
    ¬ (|((PhysicsEngine.new 2000).runTicks zeroFn zeroFn
          choppingTicks).1.efficiency_index - 1/5| ≤ 1/1000000) := by
  have h : ((PhysicsEngine.new 2000).runTicks zeroFn zeroFn
      choppingTicks).1.efficiency_index = 0 := by
    norm_num [PhysicsEngine.runTicks, choppingTicks, PhysicsEngine.new,
      PhysicsEngine.update, PhysicsState.default, f64Eps, List.foldl]
  refine ⟨h, ?_⟩
  rw [h, show |(0 : ℚ) - 1/5| = 1/5 by
    rw [zero_sub, abs_neg]; exact abs_of_pos (by norm_num)]
  norm_num

/-- C7 (amended).  After the six chopping ticks the emitted Ψ-state's
`efficiency_index` is 0.0 (recomputation is gated on `count % 10 == 0` and
more than 50 samples), while `calculate_efficiency` applied to the
engine's history at that point equals exactly 0.2 = |11 − 10| / 5 — the
value the claim expected — for every instantiation of the abstracted
`sqrt` / `ln`. -/
theorem C7_chopping_efficiency (f g : ℚ → ℚ) :
    ((PhysicsEngine.new 2000).runTicks f g choppingTicks).1.efficiency_index = 0 ∧
    ((PhysicsEngine.new 2000).runTicks f g choppingTicks).2.calculate_efficiency = 1/5 := by
  constructor
  · norm_num [PhysicsEngine.runTicks, choppingTicks, PhysicsEngine.new,
      PhysicsEngine.update, PhysicsState.default, f64Eps, List.foldl]
  · norm_num [PhysicsEngine.runTicks, choppingTicks, PhysicsEngine.new,
      PhysicsEngine.update, PhysicsState.default, f64Eps, List.foldl,
      PhysicsEngine.calculate_efficiency, abs_of_pos, abs_of_nonneg]

/-- The ring after a tick: evict the oldest at 100 samples, append the new
latency — exactly the history `Sentinel::tick` stores. -/
def Sentinel.newHistory (s : Sentinel) (elapsed : ℚ) : List ℚ :=
  (if s.history.length ≥ 100 then s.history.tail else s.history) ++ [elapsed]

/-- Variances are nonnegative. -/
theorem ringVariance_nonneg (h : List ℚ) : 0 ≤ ringVariance h := by
  unfold ringVariance
  apply div_nonneg
  · apply List.sum_nonneg
    intro x hx
    simp only [List.mem_map] at hx
    obtain ⟨y, -, rfl⟩ := hx
    positivity
  · positivity

/-- The status a tick reports, written over `newHistory`/`ringVariance`. -/
theorem tick_status_eq (sqrtFn : ℚ → ℚ) (s : Sentinel) (elapsed : ℚ) :
    (s.tick sqrtFn elapsed).2 =
      (if (if ((Sentinel.newHistory s elapsed).length : ℚ) > 10 then
            sqrtFn (ringVariance (Sentinel.newHistory s elapsed)) else 0) >
          s.jitter_threshold_us * 2 then VitalityStatus.Critical
       else if (if ((Sentinel.newHistory s elapsed).length : ℚ) > 10 then
            sqrtFn (ringVariance (Sentinel.newHistory s elapsed)) else 0) >
          s.jitter_threshold_us then VitalityStatus.Degraded
       else VitalityStatus.Optimal) := rfl

/-- A helper sqrt for concrete sentinel runs: correct on the one perfect
square the run reaches (900 ↦ 30). -/
def c8Sqrt : ℚ → ℚ := fun x => if x = 900 then 30 else 0

/-- Twelve loop latencies alternating 0 µs and 60 µs. -/
def c8Ticks : List ℚ := [0, 60, 0, 60, 0, 60, 0, 60, 0, 60, 0, 60]

/-- C8 counterexample: after twelve latency samples alternating 0/60 µs the
ring's population variance is 900, so σ = 30 µs > 25 µs — the claim says
Degraded — yet the sentinel reports Optimal (the coded thresholds are
σ > 50 for Degraded and σ > 100 for Critical).  The conjuncts certify that
the reported jitter 30 really is the square root of the variance. -/
theorem C8_counterexample :
    (Sentinel.run c8Sqrt Sentinel.new c8Ticks).current_jitter_us = 30 ∧
    ((30 : ℚ) > 25) ∧
    ((30 : ℚ) ^ 2 = 900) ∧
    ringVariance (Sentinel.run c8Sqrt Sentinel.new c8Ticks).history = 900 ∧
    (Sentinel.run c8Sqrt Sentinel.new c8Ticks).status = VitalityStatus.Optimal := by
  refine ⟨?_, by norm_num, by norm_num, ?_, ?_⟩ <;>
    norm_num [Sentinel.run, Sentinel.tick, Sentinel.new, c8Sqrt, c8Ticks,
      List.foldl, ringVariance]

/-- C8 (amended).  Each tick stores the evict-then-append 100-sample ring;
with more than 10 samples present the reported status is Critical iff the
ring's population variance exceeds 100² µs², Degraded iff it exceeds 50²
(but not 100²), and Optimal iff it is at most 50² — i.e. the σ thresholds
are 50 µs and 100 µs, not 25 µs and 50 µs; with at most 10 samples the
jitter is taken as 0 and the status is Optimal.  `sqrtFn` is assumed to
order against 50 and 100 exactly as the real square root does. -/
theorem C8_sentinel_vitality (sqrtFn : ℚ → ℚ) (s : Sentinel) (elapsed : ℚ)
    (hsq : ∀ x : ℚ, 0 ≤ x →
      ((sqrtFn x > 100 ↔ x > 10000) ∧ (sqrtFn x > 50 ↔ x > 2500)))
    (hth : s.jitter_threshold_us = 50) :
    ((s.tick sqrtFn elapsed).1.history = Sentinel.newHistory s elapsed) ∧
    (10 < (Sentinel.newHistory s elapsed).length →
      (((s.tick sqrtFn elapsed).2 = VitalityStatus.Critical ↔
          ringVariance (Sentinel.newHistory s elapsed) > 10000) ∧
       ((s.tick sqrtFn elapsed).2 = VitalityStatus.Degraded ↔
          (2500 < ringVariance (Sentinel.newHistory s elapsed) ∧
            ringVariance (Sentinel.newHistory s elapsed) ≤ 10000)) ∧
       ((s.tick sqrtFn elapsed).2 = VitalityStatus.Optimal ↔
          ringVariance (Sentinel.newHistory s elapsed) ≤ 2500))) ∧
    ((Sentinel.newHistory s elapsed).length ≤ 10 →
      (s.tick sqrtFn elapsed).2 = VitalityStatus.Optimal) := by
  refine ⟨rfl, ?_, ?_⟩
  · intro hlen
    have hcount : ((Sentinel.newHistory s elapsed).length : ℚ) > 10 := by
      exact_mod_cast hlen
    have hvar := ringVariance_nonneg (Sentinel.newHistory s elapsed)
    obtain ⟨h100, h50⟩ := hsq _ hvar
    rw [tick_status_eq, hth, if_pos hcount,
      show (50 : ℚ) * 2 = 100 by norm_num]
    by_cases hv1 : ringVariance (Sentinel.newHistory s elapsed) > 10000
    · rw [if_pos (h100.mpr hv1)]
      refine ⟨by simp [hv1], by simp; intro h; linarith, by simp; linarith⟩
    · rw [if_neg (fun hgt => hv1 (h100.mp hgt))]
      by_cases hv2 : ringVariance (Sentinel.newHistory s elapsed) > 2500
      · rw [if_pos (h50.mpr hv2)]
        refine ⟨by simp; linarith, by simp [hv2]; linarith, by simp; linarith⟩
      · rw [if_neg (fun hgt => hv2 (h50.mp hgt))]
        refine ⟨by simp; linarith, by simp; intro h; linarith, by simp; linarith⟩
  · intro hlen
    have hcount : ¬ ((Sentinel.newHistory s elapsed).length : ℚ) > 10 := by
      exact_mod_cast Nat.not_lt.mpr hlen
    rw [tick_status_eq, hth, if_neg hcount]
    rw [if_neg (by norm_num), if_neg (by norm_num)]

/-- A sqrt stand-in that satisfies the threshold ordering hypothesis of
the amended C8 theorem everywhere. -/
def c8SqrtGate : ℚ → ℚ := fun x =>
  if x > 10000 then 101 else if x > 2500 then 51 else 0

/-- C8 witness: a fresh sentinel's first tick (one sample) is Optimal, via
the amended theorem with `c8SqrtGate` discharging the sqrt hypothesis. -/
theorem C8_sentinel_vitality_witness :
    (Sentinel.new.tick c8SqrtGate 0).2 = VitalityStatus.Optimal := by
  have h := C8_sentinel_vitality c8SqrtGate Sentinel.new 0 ?hsq rfl
  · exact h.2.2 (by norm_num [Sentinel.newHistory, Sentinel.new])
  case hsq =>
    intro x _
    constructor
    · unfold c8SqrtGate
      split_ifs <;> constructor <;> intro <;> first | assumption | linarith
    · unfold c8SqrtGate
      split_ifs <;> constructor <;> intro <;> first | assumption | linarith

/-- C9.  Historian backpressure: a write against a full ring (head − tail
at capacity) only increments `dropped` — head, tail and every slot are
unchanged — and a write against a non-full ring leaves `dropped` alone. -/
theorem C9_historian_backpressure {α : Type} (b : ShmRingBuffer α) (ev : α) :
    (BUFFER_SIZE ≤ b.head - b.tail →
      (b.write ev).dropped = b.dropped + 1 ∧ (b.write ev).head = b.head ∧
      (b.write ev).tail = b.tail ∧ (b.write ev).slots = b.slots) ∧
    (b.head - b.tail < BUFFER_SIZE → (b.write ev).dropped = b.dropped) := by
  constructor
  · intro h
    simp [ShmRingBuffer.write, h]
  · intro h
    have hn : ¬ (b.head - b.tail ≥ BUFFER_SIZE) := by omega
    simp [ShmRingBuffer.write, hn]

/-- A full ring over `ℕ` events. -/
def c9Full : ShmRingBuffer ℕ := ⟨16384, 0, 0, fun _ => 0⟩

/-- C9 witness: a write against the full ring bumps `dropped` to 1 and
leaves `head` at 16384. -/
theorem C9_historian_backpressure_witness :
    (c9Full.write 7).dropped = 1 ∧ (c9Full.write 7).head = 16384 := by
  have h := (C9_historian_backpressure c9Full 7).1 (by norm_num [c9Full, BUFFER_SIZE])
  exact ⟨h.1, h.2.1⟩

/-- Along any call sequence the counter stays at most 2 and the threshold
stays 3. -/
theorem nullifier_run_bound (ops : List NullifierOp) :
    ∀ n : Nullifier, n.consecutive_failures ≤ 2 → n.amr_threshold = 3 →
      (Nullifier.run n ops).consecutive_failures ≤ 2 ∧
      (Nullifier.run n ops).amr_threshold = 3 := by
  induction ops with
  | nil => exact fun n h1 h2 => ⟨h1, h2⟩
  | cons op rest ih =>
      intro n h1 h2
      cases op with
      | fail e r t =>
          refine ih _ ?_ ?_
          · by_cases hc : 2 ≤ n.consecutive_failures
            · simp [Nullifier.nullify, h2, hc]
            · simp [Nullifier.nullify, h2, hc]
              omega
          · by_cases hc : 2 ≤ n.consecutive_failures
            · simp [Nullifier.nullify, h2, hc]
            · simp [Nullifier.nullify, h2, hc]
      | ok =>
          refine ih _ ?_ ?_ <;> simp [Nullifier.reset_continuity, h2]

/-- C10.  Implicit nullifier invariant: starting from `Nullifier::new`,
under every sequence of `nullify` / `reset_continuity` calls the
consecutive-failure counter never exceeds 3 (indeed stays ≤ 2 between
calls, since the third failure triggers the AMR and clears it), so
`requires_demotion` (threshold 5) never returns true. -/
theorem C10_nullifier_invariant (ops : List NullifierOp) :
    (Nullifier.run Nullifier.new ops).consecutive_failures ≤ 3 ∧
    (Nullifier.run Nullifier.new ops).requires_demotion = false := by
  have h := nullifier_run_bound ops Nullifier.new (by norm_num [Nullifier.new]) rfl
  refine ⟨by omega, ?_⟩
  simp only [Nullifier.requires_demotion, decide_eq_false_iff_not]
  omega

end Reflex
